import Mathlib

/-!
Verification development for the livestream-commerce spreadsheet pipeline:
the pluggable Excel-format registry, the value cleaners, data-shape
detection, and the aggregation formula generators.

The definitions are shallow embeddings of the TypeScript source.  Numeric
cell values are modelled as exact rationals; fallible parses return
`Option`.  JavaScript library behaviour that the source relies on
(`parseFloat`, truthiness, `Math.round`, the default `Array.sort`
comparator) is modelled explicitly alongside.
-/

namespace CTools

/-- A raw spreadsheet cell value: a number, a string, or an absent cell
(`null`/`undefined` in the source). -/
inductive CellValue where
  | num (q : ℚ)
  | str (s : String)
  | empty
deriving DecidableEq, Repr

/-- JavaScript truthiness test used by the cleaners' `if (!value)` guards:
`0`, the empty string and absent values are falsy. -/
def jsFalsy : CellValue → Bool
  | .num q => q == 0
  | .str s => s == ""
  | .empty => true

/-- Numeric value of a decimal digit character. -/
def digitVal (c : Char) : Nat := c.toNat - 48

/-- Value of a list of decimal digit characters, most significant first. -/
def natOfDigits (l : List Char) : Nat :=
  l.foldl (fun a c => 10 * a + digitVal c) 0

/-- Trim leading and trailing whitespace from a character list
(JavaScript `String.prototype.trim`). -/
def jsTrim (l : List Char) : List Char :=
  ((l.dropWhile Char.isWhitespace).reverse.dropWhile Char.isWhitespace).reverse

/-- `10 ^ e` for an integer exponent, as a rational. -/
def pow10 (e : Int) : ℚ :=
  if 0 ≤ e then (10 : ℚ) ^ e.toNat else 1 / (10 : ℚ) ^ (-e).toNat

/-- Modelled from ECMAScript: the signed decimal exponent digits after the
`e`/`E` marker.  When the digits are absent the exponent contributes the
neutral value `0`, matching the value `parseFloat` produces when it stops
before an incomplete exponent part. -/
def parseSignedDigits (l : List Char) : Int :=
  match l with
  | '+' :: rest => (natOfDigits (rest.takeWhile Char.isDigit) : Int)
  | '-' :: rest => -(natOfDigits (rest.takeWhile Char.isDigit) : Int)
  | _ => (natOfDigits (l.takeWhile Char.isDigit) : Int)

/-- Modelled from ECMAScript: the exponent part of a decimal literal. -/
def parseExp (l : List Char) : Int :=
  match l with
  | 'e' :: rest => parseSignedDigits rest
  | 'E' :: rest => parseSignedDigits rest
  | _ => 0

/-- Value of the mantissa digits `intPart.fracPart` as a rational. -/
def mantissaVal (ip fp : List Char) : ℚ :=
  (natOfDigits ip : ℚ) + (natOfDigits fp : ℚ) / (10 : ℚ) ^ fp.length

/-- Modelled from ECMAScript `parseFloat`: longest unsigned decimal literal
prefix (`digits`, `digits.digits` or `.digits`, with an optional exponent);
`none` when no digits are found (`NaN`).  `Infinity` is not modelled: none
of the repository's inputs can produce it. -/
def parseUnsigned (l : List Char) : Option ℚ :=
  let ip := l.takeWhile Char.isDigit
  let rest1 := l.dropWhile Char.isDigit
  match rest1 with
  | '.' :: rest2 =>
    let fp := rest2.takeWhile Char.isDigit
    let rest3 := rest2.dropWhile Char.isDigit
    if ip.isEmpty && fp.isEmpty then none
    else some (mantissaVal ip fp * pow10 (parseExp rest3))
  | _ =>
    if ip.isEmpty then none
    else some (mantissaVal ip [] * pow10 (parseExp rest1))

/-- Modelled from ECMAScript `parseFloat`: skip leading whitespace, parse an
optional sign and then the longest decimal literal prefix; trailing garbage
is ignored; `none` stands for `NaN`. -/
def jsParseFloat (s : String) : Option ℚ :=
  match s.data.dropWhile Char.isWhitespace with
  | '-' :: rest => (parseUnsigned rest).map (fun q => -q)
  | '+' :: rest => parseUnsigned rest
  | l => parseUnsigned l

/-- The character class `[Rp$€¥£₹₽¢₪₨₱₦₡₵₴₸₺₼₹]` of currency glyphs stripped
by `cleanCurrencyValue` (note that it strips the letters `R` and `p`
individually, wherever they occur). -/
def currencySymbolChars : List Char :=
  ['R', 'p', '$', '€', '¥', '£', '₹', '₽', '¢', '₪', '₨', '₱', '₦', '₡',
   '₵', '₴', '₸', '₺', '₼', '₹']

/-- The character class `[,.']` of separators stripped by
`cleanCurrencyValue`. -/
def isSeparatorChar (c : Char) : Bool :=
  c == ',' || c == '.' || c == '\''

/-- The cleaning pipeline of `cleanCurrencyValue`: strip currency glyphs,
strip `[,.']`, strip whitespace, trim. -/
def currencyCleaned (s : String) : List Char :=
  jsTrim (((s.data.filter (fun c => !(currencySymbolChars.contains c))).filter
    (fun c => !(isSeparatorChar c))).filter (fun c => !c.isWhitespace))

/-- Embedding of `cleanCurrencyValue` (src/unnamed/part_000, lines
1193-1207): numbers pass through, falsy values give 0, strings are cleaned
and parsed, unparseable input gives 0. -/
def cleanCurrencyValue : CellValue → ℚ
  | .num q => q
  | .empty => 0
  | .str s =>
    if s = "" then 0
    else (jsParseFloat (String.mk (currencyCleaned s))).getD 0

/-- The cleaning pipeline of `cleanPercentageValue`: strip `%`, replace `,`
with `.`, strip whitespace, trim. -/
def percentCleaned (s : String) : List Char :=
  jsTrim (((s.data.filter (fun c => !(c == '%'))).map
    (fun c => if c == ',' then '.' else c)).filter (fun c => !c.isWhitespace))

/-- Embedding of `cleanPercentageValue` (src/unnamed/part_000, lines
1209-1234): numbers pass through; for strings the cleaned text is parsed
and the result is divided by 100 exactly when the original string contained
a `%` sign; unparseable input gives 0. -/
def cleanPercentageValue : CellValue → ℚ
  | .num q => q
  | .empty => 0
  | .str s =>
    if s = "" then 0
    else
      match jsParseFloat (String.mk (percentCleaned s)) with
      | none => 0
      | some q => if s.data.contains '%' then q / 100 else q

/-- Embedding of `cleanNumericValue` (src/unnamed/part_000, lines
1236-1244): numbers pass through; strings have `[,\s]` stripped and are
parsed; unparseable input gives 0. -/
def cleanNumericValue : CellValue → ℚ
  | .num q => q
  | .empty => 0
  | .str s =>
    if s = "" then 0
    else
      (jsParseFloat (String.mk (jsTrim
        (s.data.filter (fun c => !(c == ',' || c.isWhitespace)))))).getD 0

/-- JavaScript `Math.round`: round half toward positive infinity. -/
def jsMathRound (q : ℚ) : Int := ⌊q + 1 / 2⌋

/-- `Math.round(q * 100) / 100`, the two-decimal rounding used by
`cleanDurationValue`. -/
def jsRound2 (q : ℚ) : ℚ := (jsMathRound (q * 100) : ℚ) / 100

/-- The regex `^(\d+):(\d+):(\d+)$` of `cleanDurationValue`, with decimal
`parseInt` applied to each captured group. -/
def parseHMS (l : List Char) : Option (Nat × Nat × Nat) :=
  match l.splitOn ':' with
  | [h, m, s] =>
    if !h.isEmpty && !m.isEmpty && !s.isEmpty && (h ++ m ++ s).all Char.isDigit
    then some (natOfDigits h, natOfDigits m, natOfDigits s)
    else none
  | _ => none

/-- `hours + minutes/60 + seconds/3600`, the decimal-hours conversion. -/
def hmsToHours (h m s : Nat) : ℚ :=
  (h : ℚ) + (m : ℚ) / 60 + (s : ℚ) / 3600

/-- Embedding of `cleanDurationValue` (src/unnamed/part_000, lines
1256-1285): numbers pass through; a trimmed string matching `H:MM:SS` is
converted to decimal hours rounded to 2 decimals; otherwise the generic
numeric parse is used; 0 on total failure. -/
def cleanDurationValue : CellValue → ℚ
  | .num q => q
  | .empty => 0
  | .str s0 =>
    if s0 = "" then 0
    else
      let l := jsTrim s0.data
      if l.isEmpty then 0
      else
        match parseHMS l with
        | some (h, m, sec) => jsRound2 (hmsToHours h m sec)
        | none =>
          (jsParseFloat (String.mk (jsTrim
            (l.filter (fun c => !(c == ',' || c.isWhitespace)))))).getD 0

/-! ### Format registry and detection -/

/-- The `ExcelFormat` enum (registry snapshot of src/unnamed/part_000). -/
inductive ExcelFormat where
  | TIKTOK_LIVESTREAM
  | SHOPEE_MONTHLY
  | UNSUPPORTED
deriving DecidableEq, Repr

/-- Worksheet model: a list of rows, each a list of cell values.  Access is
1-based; cells outside the physically present rows are empty, as in the
backing workbook library. -/
abbrev Worksheet := List (List CellValue)

/-- `worksheet.getCell(row, col)` for 1-based coordinates. -/
def getCell (ws : Worksheet) (row col : Nat) : CellValue :=
  (ws.getD (row - 1) []).getD (col - 1) CellValue.empty

/-- The fields of `ExcelFormatDefinition` that detection and registration
depend on: the `id` discriminator and the `detect` probe (returning the
data start row or `none`). -/
structure ExcelFormatDefinition where
  id : ExcelFormat
  detect : Worksheet → Option Nat

/-- Result record of `detectFormat`. -/
structure FormatDetectionResult where
  formatId : ExcelFormat
  startRow : Nat
deriving DecidableEq, Repr

/-- Embedding of `registerExcelFormat` (src/unnamed/part_000, lines
1020-1029).  The mutable global registry array is modelled by explicit
state passing; a duplicate id is skipped with a warning (pure no-op
here). -/
def registerExcelFormat (regs : List ExcelFormatDefinition)
    (formatDef : ExcelFormatDefinition) : List ExcelFormatDefinition :=
  if regs.any (fun f => f.id == formatDef.id) then regs
  else regs ++ [formatDef]

/-- Embedding of `detectFormat` (src/unnamed/part_000, lines 1058-1074):
first registered definition whose probe returns a non-null start row wins;
otherwise the `UNSUPPORTED` sentinel with default start row 2. -/
def detectFormat (regs : List ExcelFormatDefinition) (ws : Worksheet) :
    FormatDetectionResult :=
  match regs with
  | [] => ⟨ExcelFormat.UNSUPPORTED, 2⟩
  | formatDef :: rest =>
    match formatDef.detect ws with
    | some startRow => ⟨formatDef.id, startRow⟩
    | none => detectFormat rest ws

/-! ### Data-shape detection -/

/-- The loop guard of `detectDataLength`:
`(!cellA.value || cellA.value === "")` — JavaScript truthiness, so the
number `0` also counts as empty. -/
def jsEmptyAnchor (v : CellValue) : Bool :=
  jsFalsy v || v == CellValue.str ""

/-- Both anchor columns A and B of a row are empty in the sense of the
`detectDataLength` loop guard. -/
def anchorsEmpty (ws : Worksheet) (row : Nat) : Bool :=
  jsEmptyAnchor (getCell ws row 1) && jsEmptyAnchor (getCell ws row 2)

theorem anchorsEmpty_of_len_lt (ws : Worksheet) (row : Nat)
    (h : ws.length < row) : anchorsEmpty ws row = true := by
  have hrow : ws.length ≤ row - 1 := by omega
  have hcell : ∀ col, getCell ws row col = CellValue.empty := by
    intro col
    unfold getCell
    rw [List.getD_eq_default _ _ hrow]
    simp [List.getD]
  simp [anchorsEmpty, hcell, jsEmptyAnchor, jsFalsy]

/-- The `while (true)` scan of `detectDataLength`: number of contiguous
rows from `row` before the first row whose anchors are both empty.  The
scan terminates because every row beyond the physical worksheet is
empty. -/
def dataRowsFrom (ws : Worksheet) (row : Nat) : Nat :=
  if anchorsEmpty ws row then 0
  else 1 + dataRowsFrom ws (row + 1)
termination_by ws.length + 1 - row
decreasing_by
  have hle : row ≤ ws.length := by
    by_contra hgt
    push_neg at hgt
    simp [anchorsEmpty_of_len_lt ws row hgt] at *
  omega

/-- The `{startRow, lastRow}` shape record; `lastRow` is an integer because
`dataStartRow + dataRows - 1` can drop below 1 on an empty dataset. -/
structure DataShape where
  startRow : Nat
  lastRow : Int
deriving DecidableEq, Repr

/-- Embedding of `detectDataLength` (src/unnamed/part_000, lines
1134-1165), with the start row supplied by the caller. -/
def detectDataLength (ws : Worksheet) (startRow : Nat) : DataShape :=
  ⟨startRow, (startRow : Int) + (dataRowsFrom ws startRow : Int) - 1⟩

/-- Modelled from the spec: a row ends the data when the two anchor columns
are both empty, where empty means "null or empty string" (the spec's words;
the source instead uses JavaScript truthiness, under which the number `0`
is also empty). -/
def specEmptyAnchor (v : CellValue) : Bool :=
  v == CellValue.empty || v == CellValue.str ""

/-- Modelled from the spec: both anchors null or empty string. -/
def specAnchorsEmpty (ws : Worksheet) (row : Nat) : Bool :=
  specEmptyAnchor (getCell ws row 1) && specEmptyAnchor (getCell ws row 2)

theorem specAnchorsEmpty_of_len_lt (ws : Worksheet) (row : Nat)
    (h : ws.length < row) : specAnchorsEmpty ws row = true := by
  have hrow : ws.length ≤ row - 1 := by omega
  have hcell : ∀ col, getCell ws row col = CellValue.empty := by
    intro col
    unfold getCell
    rw [List.getD_eq_default _ _ hrow]
    simp [List.getD]
  simp [specAnchorsEmpty, hcell, specEmptyAnchor]

/-- Modelled from the spec: the scan of `detectDataLength` under the spec's
"null or empty string" stop condition. -/
def specDataRowsFrom (ws : Worksheet) (row : Nat) : Nat :=
  if specAnchorsEmpty ws row then 0
  else 1 + specDataRowsFrom ws (row + 1)
termination_by ws.length + 1 - row
decreasing_by
  have hle : row ≤ ws.length := by
    by_contra hgt
    push_neg at hgt
    simp [specAnchorsEmpty_of_len_lt ws row hgt] at *
  omega

/-- Modelled from the spec: `detectDataLength` with the spec's stop
condition. -/
def specDetectDataLength (ws : Worksheet) (startRow : Nat) : DataShape :=
  ⟨startRow, (startRow : Int) + (specDataRowsFrom ws startRow : Int) - 1⟩

/-! ### Range and formula string generators -/

/-- `seg` of the format definitions:
`$C$startRow:$C$lastRow` prefixed by the clean-data sheet name. -/
def cleanSeg (c : String) (startRow lastRow : Nat) : String :=
  "'clean data'!$" ++ c ++ "$" ++ toString startRow ++ ":$" ++ c ++ "$" ++
    toString lastRow

/-- The `DataRangeStrings` record of the registry snapshot. -/
structure DataRangeStrings where
  startDateR : String
  startTimeR : String
  endTimeR : String
  weekInYearR : String
  montIndex : String
  grossR : String
  directR : String
  itemsR : String
  avgViewR : String
  likesR : String
  commentsR : String
  sharesR : String
  ctrR : String
  ctorR : String
  gmv1kShowsR : String
deriving DecidableEq, Repr

/-- Embedding of `tiktokFormat.buildDataRanges`
(src/lib/excel-formats/tiktok.ts, lines 110-129). -/
def tiktokBuildDataRanges (startRow lastRow : Nat) : DataRangeStrings where
  startDateR := cleanSeg "X" startRow lastRow
  startTimeR := cleanSeg "Y" startRow lastRow
  endTimeR := cleanSeg "Z" startRow lastRow
  weekInYearR := cleanSeg "AA" startRow lastRow
  montIndex := cleanSeg "AB" startRow lastRow
  grossR := cleanSeg "D" startRow lastRow
  directR := cleanSeg "E" startRow lastRow
  itemsR := cleanSeg "F" startRow lastRow
  avgViewR := cleanSeg "P" startRow lastRow
  likesR := cleanSeg "Q" startRow lastRow
  commentsR := cleanSeg "R" startRow lastRow
  sharesR := cleanSeg "S" startRow lastRow
  ctrR := cleanSeg "V" startRow lastRow
  ctorR := cleanSeg "W" startRow lastRow
  gmv1kShowsR := cleanSeg "J" startRow lastRow

/-- Embedding of `shopeeFormat.buildDataRanges` (final Shopee snapshot in
src/lib/excel-formats, lines 522-541 of the combined file). -/
def shopeeBuildDataRanges (startRow lastRow : Nat) : DataRangeStrings where
  startDateR := cleanSeg "R" startRow lastRow
  startTimeR := cleanSeg "S" startRow lastRow
  endTimeR := cleanSeg "T" startRow lastRow
  weekInYearR := cleanSeg "U" startRow lastRow
  montIndex := cleanSeg "V" startRow lastRow
  grossR := cleanSeg "C" startRow lastRow
  directR := cleanSeg "D" startRow lastRow
  itemsR := cleanSeg "G" startRow lastRow
  avgViewR := cleanSeg "K" startRow lastRow
  likesR := cleanSeg "O" startRow lastRow
  commentsR := cleanSeg "Q" startRow lastRow
  sharesR := cleanSeg "P" startRow lastRow
  ctrR := cleanSeg "L" startRow lastRow
  ctorR := cleanSeg "M" startRow lastRow
  gmv1kShowsR := cleanSeg "C" startRow lastRow

/-- Embedding of `tiktokFormat.generateMetricsFormulas`
(src/lib/excel-formats/tiktok.ts, lines 140-164): the column-letter to
formula-text mapping of one metrics row, as an association list in
emission order. -/
def tiktokGenerateMetricsFormulas (row startRow lastRow : Nat) :
    List (String × String) :=
  let dr := tiktokBuildDataRanges startRow lastRow
  let r := toString row
  [("A", "TEXT(B" ++ r ++ ",\"dddd\")"),
   ("B", "IFERROR(SORT(UNIQUE(FILTER(" ++ dr.startDateR ++ "," ++
     dr.startDateR ++ "<>\"\"))),\"\")"),
   ("C", "XLOOKUP(B" ++ r ++ "," ++ dr.startDateR ++ "," ++
     dr.weekInYearR ++ ")"),
   ("D", "COUNTIF(" ++ dr.startDateR ++ ",B" ++ r ++ ")"),
   ("E", "ROUND(AVERAGEIFS(" ++ dr.grossR ++ "," ++ dr.startDateR ++ ",B" ++
     r ++ "),0)"),
   ("F", "SUMIFS(" ++ dr.grossR ++ "," ++ dr.startDateR ++ ",B" ++ r ++ ")"),
   ("G", "MEDIAN(FILTER(" ++ dr.ctrR ++ "," ++ dr.startDateR ++ "=B" ++ r ++
     "))"),
   ("H", "ROUND(AVERAGEIFS(" ++ dr.ctrR ++ "," ++ dr.startDateR ++ ",B" ++
     r ++ "),4)"),
   ("I", "MEDIAN(FILTER(" ++ dr.ctorR ++ "," ++ dr.startDateR ++ "=B" ++ r ++
     "))"),
   ("J", "ROUND(AVERAGEIFS(" ++ dr.ctorR ++ "," ++ dr.startDateR ++ ",B" ++
     r ++ "),4)"),
   ("K", "ROUND(AVERAGEIFS(" ++ dr.avgViewR ++ "," ++ dr.startDateR ++
     ",B" ++ r ++ "),0)"),
   ("L", "SUMIFS(" ++ dr.sharesR ++ "," ++ dr.startDateR ++ ",B" ++ r ++
     ")"),
   ("M", "SUMIFS(" ++ dr.commentsR ++ "," ++ dr.startDateR ++ ",B" ++ r ++
     ")"),
   ("N", "SUMIFS(" ++ dr.likesR ++ "," ++ dr.startDateR ++ ",B" ++ r ++
     ")"),
   ("O", "SUMIFS('clean data'!$M$" ++ toString startRow ++ ":$M$" ++
     toString lastRow ++ "," ++ dr.startDateR ++ ",B" ++ r ++ ")"),
   ("P", "MEDIAN(FILTER(" ++ dr.gmv1kShowsR ++ "," ++ dr.startDateR ++
     "=B" ++ r ++ "))")]

/-- Embedding of `tiktokFormat.generateSummaryFormulas`
(src/lib/excel-formats/tiktok.ts, lines 165-180). -/
def tiktokGenerateSummaryFormulas (startRow lastRow : Nat) :
    List (String × String) :=
  let dr := tiktokBuildDataRanges startRow lastRow
  [("Avg GMV/Sesi", "ROUND(AVERAGE(" ++ dr.directR ++ "),0)"),
   ("Avg GMV/Day", "ROUND(AVERAGE(metrics!F:F),0)"),
   ("Avg CTR", "ROUND(AVERAGE(" ++ dr.ctrR ++ "),4)"),
   ("Avg CTOR", "ROUND(AVERAGE(" ++ dr.ctorR ++ "),4)"),
   ("Avg Viewers", "ROUND(AVERAGE('clean data'!$M$" ++ toString startRow ++
     ":$M$" ++ toString lastRow ++ "),0)"),
   ("Avg Like", "ROUND(AVERAGE(" ++ dr.likesR ++ "),0)"),
   ("Avg Comment", "ROUND(AVERAGE(" ++ dr.commentsR ++ "),0)"),
   ("Avg Share", "ROUND(AVERAGE(" ++ dr.sharesR ++ "),0)")]

/-- Embedding of the `H` (Sum Sales) and `I`/`N`/`R` (prime-time
placeholder) entries of `shopeeFormat.generateMetricsFormulas`, plus the
rest of the row (final Shopee snapshot, lines 591-630 of the combined
file). -/
def shopeeGenerateMetricsFormulas (row startRow lastRow : Nat) :
    List (String × String) :=
  let dr := shopeeBuildDataRanges startRow lastRow
  let r := toString row
  [("A", "TEXT(B" ++ r ++ ",\"dddd\")"),
   ("B", "IFERROR(SORT(UNIQUE(FILTER(" ++ dr.startDateR ++ "," ++
     dr.startDateR ++ "<>\"\"))),\"\")"),
   ("C", "XLOOKUP(B" ++ r ++ "," ++ dr.startDateR ++ "," ++
     dr.weekInYearR ++ ")"),
   ("D", "COUNTIF(" ++ dr.startDateR ++ ",B" ++ r ++ ")"),
   ("E", "MAXIFS(" ++ dr.grossR ++ "," ++ dr.startDateR ++ ",B" ++ r ++
     ")"),
   ("F", "MINIFS(" ++ dr.grossR ++ "," ++ dr.startDateR ++ ",B" ++ r ++
     ")"),
   ("G", "ROUND(AVERAGEIFS(" ++ dr.grossR ++ "," ++ dr.startDateR ++
     ",B" ++ r ++ "),0)"),
   ("H", "SUMIFS(" ++ dr.grossR ++ "," ++ dr.startDateR ++ ",B" ++ r ++
     ")"),
   ("I", "\"\""),
   ("J", "MAXIFS(" ++ dr.itemsR ++ "," ++ dr.startDateR ++ ",B" ++ r ++
     ")"),
   ("K", "MINIFS(" ++ dr.itemsR ++ "," ++ dr.startDateR ++ ",B" ++ r ++
     ")"),
   ("L", "ROUND(AVERAGEIFS(" ++ dr.itemsR ++ "," ++ dr.startDateR ++
     ",B" ++ r ++ "),0)"),
   ("M", "ROUND(AVERAGEIFS(" ++ dr.avgViewR ++ "," ++ dr.startDateR ++
     ",B" ++ r ++ "),0)"),
   ("N", "\"\""),
   ("O", "MAXIFS(" ++ dr.ctrR ++ "," ++ dr.startDateR ++ ",B" ++ r ++ ")"),
   ("P", "MINIFS(" ++ dr.ctrR ++ "," ++ dr.startDateR ++ ",B" ++ r ++ ")"),
   ("Q", "ROUND(AVERAGEIFS(" ++ dr.ctrR ++ "," ++ dr.startDateR ++ ",B" ++
     r ++ "),4)"),
   ("R", "\"\""),
   ("S", "MAXIFS(" ++ dr.ctorR ++ "," ++ dr.startDateR ++ ",B" ++ r ++
     ")"),
   ("T", "MINIFS(" ++ dr.ctorR ++ "," ++ dr.startDateR ++ ",B" ++ r ++
     ")"),
   ("U", "ROUND(AVERAGEIFS(" ++ dr.ctorR ++ "," ++ dr.startDateR ++
     ",B" ++ r ++ "),4)"),
   ("V", "ROUND(AVERAGEIFS(" ++ dr.avgViewR ++ "," ++ dr.startDateR ++
     ",B" ++ r ++ "),0)"),
   ("W", "MAXIFS(" ++ dr.likesR ++ "," ++ dr.startDateR ++ ",B" ++ r ++
     ")"),
   ("X", "MINIFS(" ++ dr.likesR ++ "," ++ dr.startDateR ++ ",B" ++ r ++
     ")"),
   ("Y", "ROUND(AVERAGEIFS(" ++ dr.likesR ++ "," ++ dr.startDateR ++
     ",B" ++ r ++ "),0)"),
   ("Z", "MAXIFS(" ++ dr.commentsR ++ "," ++ dr.startDateR ++ ",B" ++ r ++
     ")"),
   ("AA", "MINIFS(" ++ dr.commentsR ++ "," ++ dr.startDateR ++ ",B" ++ r ++
     ")"),
   ("AB", "ROUND(AVERAGEIFS(" ++ dr.commentsR ++ "," ++ dr.startDateR ++
     ",B" ++ r ++ "),0)"),
   ("AC", "MAXIFS(" ++ dr.sharesR ++ "," ++ dr.startDateR ++ ",B" ++ r ++
     ")"),
   ("AD", "MINIFS(" ++ dr.sharesR ++ "," ++ dr.startDateR ++ ",B" ++ r ++
     ")"),
   ("AE", "ROUND(AVERAGEIFS(" ++ dr.sharesR ++ "," ++ dr.startDateR ++
     ",B" ++ r ++ "),0)")]

/-- Embedding of `shopeeFormat.generateSummaryFormulas` (final Shopee
snapshot, lines 631-646 of the combined file). -/
def shopeeGenerateSummaryFormulas (startRow lastRow : Nat) :
    List (String × String) :=
  let dr := shopeeBuildDataRanges startRow lastRow
  [("Avg Sales/Session", "ROUND(AVERAGE(" ++ dr.grossR ++ "),0)"),
   ("Avg Sales/Day", "ROUND(AVERAGE(metrics!H:H),0)"),
   ("Avg CTR", "ROUND(AVERAGE(" ++ dr.ctrR ++ "),4)"),
   ("Avg CTOR", "ROUND(AVERAGE(" ++ dr.ctorR ++ "),4)"),
   ("Avg Viewers", "ROUND(AVERAGE('clean data'!$I$" ++ toString startRow ++
     ":$I$" ++ toString lastRow ++ "),0)"),
   ("Avg Like", "ROUND(AVERAGE(" ++ dr.likesR ++ "),0)"),
   ("Avg Comment", "ROUND(AVERAGE(" ++ dr.commentsR ++ "),0)"),
   ("Avg Share", "ROUND(AVERAGE(" ++ dr.sharesR ++ "),0)")]

/-- Column I of the legacy TikTok branch of `generateMetricsFormulas`
(src/unnamed/part_000, line 554): the prime-time-by-max-revenue
expression. -/
def legacyTiktokMetricsFormulaI (row startRow lastRow : Nat) : String :=
  "TEXTJOIN(\", \",TRUE, FILTER(" ++ cleanSeg "Y" startRow lastRow ++
    ", (" ++ cleanSeg "X" startRow lastRow ++ "=B" ++ toString row ++
    ")*(" ++ cleanSeg "D" startRow lastRow ++ "=E" ++ toString row ++ ")))"

/-- Substring test: does `l` start with `pat`? -/
def listStartsWith : List Char → List Char → Bool
  | [], _ => true
  | _ :: _, [] => false
  | a :: as, b :: bs => a == b && listStartsWith as bs

/-- Substring test: does `pat` occur contiguously in `l`? -/
def listContainsSub (pat : List Char) : List Char → Bool
  | [] => listStartsWith pat []
  | c :: rest => listStartsWith pat (c :: rest) || listContainsSub pat rest

/-- Substring occurrence on strings. -/
def strContainsSub (s pat : String) : Bool :=
  listContainsSub pat.data s.data

/-! ### Semantics of the prime-time expression -/

/-- One clean-data row, restricted to the columns the prime-time expression
reads: start date (column X), start time (column Y) and gross revenue
(column D). -/
structure CleanRow where
  startDate : String
  startTime : String
  gross : ℚ
deriving DecidableEq, Repr

/-- Spreadsheet `MAXIFS` over an already filtered list of values: 0 when
nothing matched, otherwise the maximum. -/
def maxifs : List ℚ → ℚ
  | [] => 0
  | x :: xs => xs.foldl max x

/-- `MAXIFS(grossR, startDateR, d)`: maximum gross revenue among the rows
of date `d` (the metrics column E the prime-time expression compares
against). -/
def maxGrossOn (rows : List CleanRow) (d : String) : ℚ :=
  maxifs ((rows.filter (fun r => r.startDate == d)).map (fun r => r.gross))

/-- `FILTER(startTimeR, (startDateR=d)*(grossR=MAXIFS(...)))`: the rows of
date `d` whose gross revenue ties the date's maximum. -/
def primeTimeRows (rows : List CleanRow) (d : String) : List CleanRow :=
  rows.filter (fun r => r.startDate == d && r.gross == maxGrossOn rows d)

/-- Spreadsheet `TEXTJOIN(sep, TRUE, vals)`: join, ignoring empty
strings. -/
def textJoin (sep : String) (vals : List String) : String :=
  String.intercalate sep (vals.filter (fun v => !(v == "")))

/-- Evaluation, under standard spreadsheet semantics, of the legacy TikTok
prime-time-by-max-revenue expression (column I, src/unnamed/part_000 line
554): the start times of all rows tying the date's maximum gross revenue,
joined by `", "`. -/
def legacyTiktokPrimeTime (rows : List CleanRow) (d : String) : String :=
  textJoin ", " ((primeTimeRows rows d).map (fun r => r.startTime))

/-! ### Trend sheet month ordering -/

/-- `MONTH_MAP_STRING` (src/unnamed/part_004, lines 32-45). -/
def MONTH_MAP_STRING : List String :=
  ["Jan", "Feb", "Mar", "Apr", "May", "Jun",
   "Jul", "Aug", "Sep", "Oct", "Nov", "Dec"]

/-- `Set.prototype.add` on a list kept in insertion order (iteration order
of a JavaScript `Set`). -/
def jsSetInsert (acc : List Nat) (m : Nat) : List Nat :=
  if m ∈ acc then acc else acc ++ [m]

/-- `Array.from(new Set(seq))`: the distinct elements in first-occurrence
order. -/
def uniqueInsertionOrder (l : List Nat) : List Nat :=
  l.foldl jsSetInsert []

/-- Lexicographic order on UTF-16 code units, the comparison used by the
default (comparator-less) JavaScript `Array.prototype.sort`. -/
def charListLe : List Char → List Char → Bool
  | [], _ => true
  | _ :: _, [] => false
  | a :: as, b :: bs =>
    if a.toNat < b.toNat then true
    else if b.toNat < a.toNat then false
    else charListLe as bs

/-- The default-sort order on numbers: compare their decimal string
representations lexicographically. -/
def jsNumStrLe (a b : Nat) : Prop :=
  charListLe (Nat.repr a).data (Nat.repr b).data = true

instance : DecidableRel jsNumStrLe := fun a b =>
  inferInstanceAs (Decidable (charListLe (Nat.repr a).data (Nat.repr b).data = true))

/-- `Array.from(uniqueMonths).sort()` (src/unnamed/part_004, line 489):
JavaScript's default sort orders the distinct month indices by their
decimal string representation. -/
def sortedMonthsFromData (months : List Nat) : List Nat :=
  List.insertionSort jsNumStrLe (uniqueInsertionOrder months)

/-- The trend sheet rows emitted by `processExcelFile`
(src/unnamed/part_004, lines 488-507): for each sorted month index `m`, a
row whose column A holds `m + 1` and column B the month name. -/
def trendMonthRows (months : List Nat) : List (Nat × String) :=
  (sortedMonthsFromData months).map
    (fun m => (m + 1, MONTH_MAP_STRING.getD m ""))

/-! ## Helper lemmas -/

theorem isDigit_not_isWhitespace {c : Char} (h : c.isDigit = true) :
    c.isWhitespace = false := by
  cases hw : c.isWhitespace with
  | false => rfl
  | true =>
    exfalso
    rw [Char.isWhitespace] at hw
    simp only [Bool.or_eq_true, decide_eq_true_eq] at hw
    rcases hw with ((h1 | h1) | h1) | h1 <;> subst h1 <;>
      exact absurd h (by decide)

theorem takeWhile_all_eq {p : Char → Bool} :
    ∀ {l : List Char}, l.all p = true → l.takeWhile p = l := by
  intro l h
  induction l with
  | nil => rfl
  | cons c cs ih =>
    rw [List.all_cons, Bool.and_eq_true] at h
    rw [List.takeWhile_cons, h.1]
    simp [ih h.2]

theorem dropWhile_all_eq {p : Char → Bool} :
    ∀ {l : List Char}, l.all p = true → l.dropWhile p = [] := by
  intro l h
  induction l with
  | nil => rfl
  | cons c cs ih =>
    rw [List.all_cons, Bool.and_eq_true] at h
    rw [List.dropWhile_cons, h.1, ih h.2]
    simp

theorem takeWhile_append_all {p : Char → Bool} {l1 l2 : List Char}
    (h : l1.all p = true) : (l1 ++ l2).takeWhile p = l1 ++ l2.takeWhile p := by
  induction l1 with
  | nil => rfl
  | cons c cs ih =>
    rw [List.all_cons, Bool.and_eq_true] at h
    rw [List.cons_append, List.takeWhile_cons, h.1, ih h.2]
    simp

theorem dropWhile_append_all {p : Char → Bool} {l1 l2 : List Char}
    (h : l1.all p = true) : (l1 ++ l2).dropWhile p = l2.dropWhile p := by
  induction l1 with
  | nil => rfl
  | cons c cs ih =>
    rw [List.all_cons, Bool.and_eq_true] at h
    rw [List.cons_append, List.dropWhile_cons, h.1]
    exact ih h.2

theorem jsParseFloat_all_digits {l : List Char} (hne : l ≠ [])
    (hd : l.all Char.isDigit = true) :
    jsParseFloat (String.mk l) = some ((natOfDigits l : ℚ)) := by
  obtain ⟨c, cs, rfl⟩ := List.exists_cons_of_ne_nil hne
  rw [List.all_cons, Bool.and_eq_true] at hd
  obtain ⟨hc, hcs⟩ := hd
  have hws : c.isWhitespace = false := isDigit_not_isWhitespace hc
  have hall : (c :: cs).all Char.isDigit = true := by
    rw [List.all_cons, Bool.and_eq_true]; exact ⟨hc, hcs⟩
  have hdrop : List.dropWhile Char.isWhitespace (c :: cs) = c :: cs := by
    rw [List.dropWhile_cons, hws]; simp
  unfold jsParseFloat
  rw [show (String.mk (c :: cs)).data = c :: cs from rfl, hdrop]
  split
  case _ rest heq =>
    exfalso
    injection heq with h1 _
    subst h1
    exact absurd hc (by decide)
  case _ rest heq =>
    exfalso
    injection heq with h1 _
    subst h1
    exact absurd hc (by decide)
  case _ =>
    unfold parseUnsigned
    rw [takeWhile_all_eq hall, dropWhile_all_eq hall]
    simp only [List.isEmpty_cons]
    norm_num [mantissaVal, pow10, parseExp, natOfDigits]

theorem jsParseFloat_digits_dot {ip fp : List Char} (hne : ip ≠ [])
    (hip : ip.all Char.isDigit = true) (hfp : fp.all Char.isDigit = true) :
    jsParseFloat (String.mk (ip ++ '.' :: fp)) =
      some ((natOfDigits ip : ℚ) + (natOfDigits fp : ℚ) / 10 ^ fp.length) := by
  obtain ⟨c, cs, rfl⟩ := List.exists_cons_of_ne_nil hne
  rw [List.all_cons, Bool.and_eq_true] at hip
  obtain ⟨hc, hcs⟩ := hip
  have hws : c.isWhitespace = false := isDigit_not_isWhitespace hc
  have hall : (c :: cs).all Char.isDigit = true := by
    rw [List.all_cons, Bool.and_eq_true]; exact ⟨hc, hcs⟩
  have hdrop : List.dropWhile Char.isWhitespace ((c :: cs) ++ '.' :: fp) =
      (c :: cs) ++ '.' :: fp := by
    rw [List.cons_append, List.dropWhile_cons, hws]; simp
  unfold jsParseFloat
  rw [show (String.mk ((c :: cs) ++ '.' :: fp)).data = (c :: cs) ++ '.' :: fp
    from rfl, hdrop]
  split
  case _ rest heq =>
    exfalso
    rw [List.cons_append] at heq
    injection heq with h1 _
    subst h1
    exact absurd hc (by decide)
  case _ rest heq =>
    exfalso
    rw [List.cons_append] at heq
    injection heq with h1 _
    subst h1
    exact absurd hc (by decide)
  case _ =>
    unfold parseUnsigned
    rw [takeWhile_append_all hall, dropWhile_append_all hall]
    rw [show List.takeWhile Char.isDigit ('.' :: fp) = [] by
      rw [List.takeWhile_cons]; simp]
    rw [show List.dropWhile Char.isDigit ('.' :: fp) = '.' :: fp by
      rw [List.dropWhile_cons]; simp]
    rw [List.append_nil]
    simp only [takeWhile_all_eq hfp, dropWhile_all_eq hfp,
      List.isEmpty_cons, Bool.false_and]
    norm_num [mantissaVal, pow10, parseExp]

/-- The three C1 sample inputs, evaluated. -/
theorem cleanCurrency_rp_val :
    cleanCurrencyValue (.str "Rp1.500.000") = 1500000 := by
  have h1 : currencyCleaned "Rp1.500.000" = ['1', '5', '0', '0', '0', '0', '0'] := by
    decide
  have h2 : cleanCurrencyValue (.str "Rp1.500.000") =
      (jsParseFloat (String.mk (currencyCleaned "Rp1.500.000"))).getD 0 := rfl
  rw [h2, h1, jsParseFloat_all_digits (by decide) (by decide)]
  rw [show natOfDigits ['1', '5', '0', '0', '0', '0', '0'] = 1500000 by decide]
  norm_num

theorem cleanCurrency_usd_val :
    cleanCurrencyValue (.str "$1,500.00") = 150000 := by
  have h1 : currencyCleaned "$1,500.00" = ['1', '5', '0', '0', '0', '0'] := by
    decide
  have h2 : cleanCurrencyValue (.str "$1,500.00") =
      (jsParseFloat (String.mk (currencyCleaned "$1,500.00"))).getD 0 := rfl
  rw [h2, h1, jsParseFloat_all_digits (by decide) (by decide)]
  rw [show natOfDigits ['1', '5', '0', '0', '0', '0'] = 150000 by decide]
  norm_num

/-! ## Claim theorems -/

/-- C1 (counterexample): the three spec samples do **not** all clean to the
same magnitude: `Rp1.500.000` gives 1500000, `$1,500.00` gives 150000 and
the raw number 1500 stays 1500. -/
theorem cleanCurrencyValue_samples_counterexample :
    ¬ (cleanCurrencyValue (.str "Rp1.500.000") =
         cleanCurrencyValue (.str "$1,500.00") ∧
       cleanCurrencyValue (.str "$1,500.00") =
         cleanCurrencyValue (.num 1500)) := by
  intro hcontra
  obtain ⟨h1, _⟩ := hcontra
  rw [cleanCurrency_rp_val, cleanCurrency_usd_val] at h1
  norm_num at h1

/-- C1 (amended): under the documented stripping rule the three samples
clean to the pairwise-different values 1500000, 150000 and 1500 (glyphs and
both separators are removed, so the cents of `$1,500.00` are folded into
the integer), and unparseable input cleans to 0. -/
theorem cleanCurrencyValue_samples :
    cleanCurrencyValue (.str "Rp1.500.000") = 1500000 ∧
    cleanCurrencyValue (.str "$1,500.00") = 150000 ∧
    cleanCurrencyValue (.num 1500) = 1500 ∧
    cleanCurrencyValue (.str "abc") = 0 :=
  ⟨cleanCurrency_rp_val, cleanCurrency_usd_val, rfl, by decide⟩

/-- C10: every numeric raw cell passes through all four cleaners
unchanged: no separator stripping and no percentage division happens for
values that are already numbers. -/
theorem cleaners_fix_numbers (q : ℚ) :
    cleanCurrencyValue (.num q) = q ∧
    cleanPercentageValue (.num q) = q ∧
    cleanNumericValue (.num q) = q ∧
    cleanDurationValue (.num q) = q :=
  ⟨rfl, rfl, rfl, rfl⟩

theorem cleanDuration_hms_case {s : String} {h m sec : Nat}
    (hp : parseHMS (jsTrim s.data) = some (h, m, sec)) :
    cleanDurationValue (.str s) = jsRound2 (hmsToHours h m sec) := by
  by_cases hs : s = ""
  · subst hs
    rw [show parseHMS (jsTrim ("" : String).data) = none from rfl] at hp
    exact absurd hp (by simp)
  · have hl : (jsTrim s.data).isEmpty = false := by
      cases hE : jsTrim s.data with
      | nil => rw [hE, show parseHMS [] = none from rfl] at hp; exact absurd hp (by simp)
      | cons c cs => rfl
    simp only [cleanDurationValue]
    rw [if_neg hs, hl]
    simp only [Bool.false_eq_true, if_false]
    rw [hp]

theorem cleanDuration_fallback_case {s : String}
    (hn : parseHMS (jsTrim s.data) = none) :
    cleanDurationValue (.str s) =
      cleanNumericValue (.str (String.mk (jsTrim s.data))) := by
  by_cases hs : s = ""
  · subst hs; rfl
  · cases hE : jsTrim s.data with
    | nil =>
      simp only [cleanDurationValue, cleanNumericValue]
      rw [if_neg hs, hE]
      rfl
    | cons c cs =>
      have hmkne : String.mk (c :: cs) ≠ "" := by
        intro hcon
        rw [String.ext_iff] at hcon
        exact absurd hcon (by simp)
      simp only [cleanDurationValue, cleanNumericValue]
      rw [if_neg hs, hE, if_neg hmkne]
      rw [hE] at hn
      rw [hn]
      rfl

/-- C6: `cleanDurationValue` returns numbers unchanged; converts an
`H:MM:SS` string to `hours + minutes/60 + seconds/3600` rounded to two
decimals (so `"4:02:02"` gives exactly 4.03); and otherwise falls back to
the generic numeric parse of the trimmed string, yielding 0 on total
failure. -/
theorem cleanDurationValue_spec :
    (∀ q : ℚ, cleanDurationValue (.num q) = q) ∧
    (∀ (s : String) (h m sec : Nat),
      parseHMS (jsTrim s.data) = some (h, m, sec) →
      cleanDurationValue (.str s) = jsRound2 (hmsToHours h m sec)) ∧
    cleanDurationValue (.str "4:02:02") = 403 / 100 ∧
    (∀ s : String, parseHMS (jsTrim s.data) = none →
      cleanDurationValue (.str s) =
        cleanNumericValue (.str (String.mk (jsTrim s.data)))) ∧
    cleanDurationValue (.str "abc") = 0 := by
  refine ⟨fun q => rfl, fun s h m sec hp => cleanDuration_hms_case hp, ?_,
    fun s hn => cleanDuration_fallback_case hn, by decide⟩
  rw [@cleanDuration_hms_case "4:02:02" 4 2 2 (by decide)]
  norm_num [jsRound2, hmsToHours, jsMathRound]

/-- C6 witness: the hypothesis of the `H:MM:SS` clause discharged at the
concrete input `"4:02:02"`. -/
theorem cleanDurationValue_spec_witness :
    cleanDurationValue (.str "4:02:02") = jsRound2 (hmsToHours 4 2 2) :=
  cleanDurationValue_spec.2.1 "4:02:02" 4 2 2 (by decide)

theorem cleanPercentage_parse_case {s : String} {q : ℚ}
    (hp : jsParseFloat (String.mk (percentCleaned s)) = some q) :
    cleanPercentageValue (.str s) =
      if s.data.contains '%' then q / 100 else q := by
  by_cases hs : s = ""
  · subst hs
    rw [show jsParseFloat (String.mk (percentCleaned "")) = none from rfl] at hp
    exact absurd hp (by simp)
  · simp only [cleanPercentageValue]
    rw [if_neg hs, hp]

theorem percentCleaned_15_parse :
    jsParseFloat (String.mk (percentCleaned "15%")) = some 15 := by
  rw [show percentCleaned "15%" = ['1', '5'] by decide,
    jsParseFloat_all_digits (by decide) (by decide)]
  norm_num [show natOfDigits ['1', '5'] = 15 by decide]

/-- C7: `cleanPercentageValue` strips `%` and normalizes `,` to `.`; when
the original string contained `%` the parsed value is divided by 100
(`"15%"` gives 0.15), otherwise it is returned unchanged (`"0.15"` gives
0.15 with no division), and unparseable input gives 0. -/
theorem cleanPercentageValue_spec :
    cleanPercentageValue (.str "15%") = 15 / 100 ∧
    cleanPercentageValue (.str "0.15") = 15 / 100 ∧
    cleanPercentageValue (.str "abc") = 0 ∧
    (∀ (s : String) (q : ℚ),
      jsParseFloat (String.mk (percentCleaned s)) = some q →
      cleanPercentageValue (.str s) =
        if s.data.contains '%' then q / 100 else q) := by
  refine ⟨?_, ?_, by decide, fun s q hp => cleanPercentage_parse_case hp⟩
  · rw [cleanPercentage_parse_case percentCleaned_15_parse, if_pos (by decide)]
  · have hp : jsParseFloat (String.mk (percentCleaned "0.15")) =
        some ((natOfDigits ['0'] : ℚ) + (natOfDigits ['1', '5'] : ℚ) /
          10 ^ (['1', '5'] : List Char).length) := by
      rw [show percentCleaned "0.15" = ['0'] ++ '.' :: ['1', '5'] by decide]
      exact jsParseFloat_digits_dot (by decide) (by decide) (by decide)
    rw [cleanPercentage_parse_case hp, if_neg (by decide)]
    norm_num [show natOfDigits ['0'] = 0 by decide,
      show natOfDigits ['1', '5'] = 15 by decide]

/-- C7 witness: the hypothesis of the general clause discharged at the
concrete input `"15%"` with parsed value 15. -/
theorem cleanPercentageValue_spec_witness :
    cleanPercentageValue (.str "15%") =
      if ("15%" : String).data.contains '%' then (15 : ℚ) / 100 else 15 :=
  cleanPercentageValue_spec.2.2.2 "15%" 15 percentCleaned_15_parse

/-! ## C2: prime-time expression -/

/-- C2 (counterexample): the registered TikTok format's metrics row
(`tiktokFormat.generateMetricsFormulas`) emits exactly the columns A-P and
none of their formulas is a prime-time `TEXTJOIN` expression — the current
day-level layout carries no prime-time label at all. -/
theorem tiktokMetrics_no_primeTime :
    ((tiktokGenerateMetricsFormulas 2 2 3).map Prod.fst =
      ["A", "B", "C", "D", "E", "F", "G", "H", "I", "J", "K", "L", "M", "N",
       "O", "P"]) ∧
    (tiktokGenerateMetricsFormulas 2 2 3).all
      (fun p => !(strContainsSub p.2 "TEXTJOIN")) = true := by
  constructor
  · rfl
  · decide

/-- C2 (amended): the legacy TikTok branch of `generateMetricsFormulas`
(src/unnamed/part_000, line 554) emits in column I a `TEXTJOIN`/`FILTER`
prime-time expression whose evaluation includes the start times of **all**
rows tying the date's maximum gross revenue, joined into one string; the
currently registered TikTok format emits no such column (see the
counterexample). -/
theorem legacyTiktokPrimeTime_includes_ties :
    (∀ (rows : List CleanRow) (d : String) (r : CleanRow),
      r ∈ rows → r.startDate = d → r.gross = maxGrossOn rows d →
      r.startTime ∈ (primeTimeRows rows d).map (fun x => x.startTime)) ∧
    (∀ (rows : List CleanRow) (d : String),
      legacyTiktokPrimeTime rows d =
        textJoin ", " ((primeTimeRows rows d).map (fun x => x.startTime))) ∧
    strContainsSub (legacyTiktokMetricsFormulaI 2 2 5) "TEXTJOIN" = true := by
  refine ⟨?_, fun rows d => rfl, by decide⟩
  intro rows d r hmem hdate hgross
  refine List.mem_map_of_mem _ ?_
  rw [primeTimeRows, List.mem_filter]
  refine ⟨hmem, ?_⟩
  rw [hdate, hgross]
  simp

def wTieRow1 : CleanRow := ⟨"2025-01-01", "18:00", 100⟩

def wTieRow2 : CleanRow := ⟨"2025-01-01", "20:00", 100⟩

/-- C2 witness: with two rows on the same date tying at gross revenue 100,
the second tied row's start time is in the prime-time list. -/
theorem legacyTiktokPrimeTime_includes_ties_witness :
    "20:00" ∈ (primeTimeRows [wTieRow1, wTieRow2] "2025-01-01").map
      (fun x => x.startTime) :=
  legacyTiktokPrimeTime_includes_ties.1 [wTieRow1, wTieRow2] "2025-01-01"
    wTieRow2 (by simp) rfl
    (by
      have hmax : maxGrossOn [wTieRow1, wTieRow2] "2025-01-01" = 100 := by
        simp +decide [maxGrossOn, maxifs, wTieRow1, wTieRow2]
      rw [hmax, show wTieRow2.gross = 100 from rfl])

theorem insertionSort_perm_uniqueMonths (months : List Nat) :
    List.Perm (List.insertionSort jsNumStrLe (uniqueInsertionOrder months))
      (uniqueInsertionOrder months) :=
  List.perm_insertionSort _ _

/-! ## C3: trend sheet month ordering -/

theorem charListLe_total : ∀ x y : List Char,
    charListLe x y = true ∨ charListLe y x = true := by
  intro x
  induction x with
  | nil => intro y; left; cases y <;> rfl
  | cons a as ih =>
    intro y
    cases y with
    | nil => right; rfl
    | cons b bs =>
      by_cases h1 : a.toNat < b.toNat
      · left; simp [charListLe, h1]
      · by_cases h2 : b.toNat < a.toNat
        · right; simp [charListLe, h1, h2]
        · rcases ih bs with h | h
          · left; simp [charListLe, h1, h2, h]
          · right; simp [charListLe, h1, h2, h]

theorem charListLe_trans : ∀ x y z : List Char,
    charListLe x y = true → charListLe y z = true → charListLe x z = true := by
  intro x
  induction x with
  | nil => intro y z _ _; cases z <;> rfl
  | cons a as ih =>
    intro y z hxy hyz
    cases y with
    | nil => exact absurd hxy (by simp [charListLe])
    | cons b bs =>
      cases z with
      | nil => exact absurd hyz (by simp [charListLe])
      | cons c cs =>
        simp only [charListLe] at hxy hyz ⊢
        by_cases hab : a.toNat < b.toNat
        · by_cases hbc : b.toNat < c.toNat
          · simp [show a.toNat < c.toNat by omega]
          · by_cases hcb : c.toNat < b.toNat
            · simp [hbc, hcb] at hyz
            · simp [show a.toNat < c.toNat by omega]
        · by_cases hba : b.toNat < a.toNat
          · simp [hab, hba] at hxy
          · have hab2 : a.toNat = b.toNat := by omega
            by_cases hbc : b.toNat < c.toNat
            · simp [show a.toNat < c.toNat by omega]
            · by_cases hcb : c.toNat < b.toNat
              · simp [hbc, hcb] at hyz
              · have hbc2 : b.toNat = c.toNat := by omega
                simp [hab, hba] at hxy
                simp [hbc, hcb] at hyz
                simp [show ¬ a.toNat < c.toNat by omega,
                  show ¬ c.toNat < a.toNat by omega]
                exact ih bs cs hxy hyz

instance : IsTotal Nat jsNumStrLe :=
  ⟨fun a b => charListLe_total (Nat.repr a).data (Nat.repr b).data⟩

instance : IsTrans Nat jsNumStrLe :=
  ⟨fun a b c => charListLe_trans (Nat.repr a).data (Nat.repr b).data
    (Nat.repr c).data⟩

theorem mem_jsSetInsert {acc : List Nat} {m x : Nat} :
    x ∈ jsSetInsert acc m ↔ x ∈ acc ∨ x = m := by
  unfold jsSetInsert
  split
  case isTrue h =>
    constructor
    · exact Or.inl
    · rintro (hx | hx)
      · exact hx
      · subst hx; exact h
  case isFalse h => simp

theorem nodup_jsSetInsert {acc : List Nat} {m : Nat} (h : acc.Nodup) :
    (jsSetInsert acc m).Nodup := by
  unfold jsSetInsert
  split
  case isTrue => exact h
  case isFalse hno =>
    rw [List.nodup_append]
    refine ⟨h, List.nodup_singleton m, ?_⟩
    intro a ha hb
    rw [List.mem_singleton] at hb
    subst hb
    exact hno ha

theorem foldl_jsSetInsert_nodup :
    ∀ (l acc : List Nat), acc.Nodup → (l.foldl jsSetInsert acc).Nodup := by
  intro l
  induction l with
  | nil => intro acc h; exact h
  | cons c cs ih => intro acc h; exact ih _ (nodup_jsSetInsert h)

theorem mem_foldl_jsSetInsert :
    ∀ (l acc : List Nat) (x : Nat),
      x ∈ l.foldl jsSetInsert acc ↔ x ∈ acc ∨ x ∈ l := by
  intro l
  induction l with
  | nil => intro acc x; simp
  | cons c cs ih =>
    intro acc x
    rw [List.foldl_cons, ih, mem_jsSetInsert]
    simp
    tauto

/-- C3 (counterexample): a dataset containing months 2 and 10 yields the
row for month 10 (labelled `11`/`Nov`) **before** the row for month 2
(labelled `3`/`Mar`): JavaScript's default `Array.sort` orders the month
indices as strings, so the emitted rows are not in numeric ascending
order. -/
theorem trendMonthRows_counterexample :
    trendMonthRows [2, 10] = [(11, "Nov"), (3, "Mar")] ∧
    ¬ ((trendMonthRows [2, 10]).map Prod.fst).Sorted (· ≤ ·) := by decide

/-- C3 (amended): the trend sheet emits exactly one row per distinct month
index present in the data, but the rows are ordered by the **decimal string
representation** of the month index (JavaScript default sort), which is
numeric ascending only while all indices have equally many digits. -/
theorem trendMonthRows_spec (months : List Nat) :
    (sortedMonthsFromData months).Nodup ∧
    (∀ m, m ∈ sortedMonthsFromData months ↔ m ∈ months) ∧
    (sortedMonthsFromData months).Sorted jsNumStrLe ∧
    trendMonthRows months =
      (sortedMonthsFromData months).map
        (fun m => (m + 1, MONTH_MAP_STRING.getD m "")) := by
  have hperm := insertionSort_perm_uniqueMonths months
  refine ⟨?_, ?_, ?_, rfl⟩
  · rw [sortedMonthsFromData, hperm.nodup_iff]
    exact foldl_jsSetInsert_nodup months [] List.nodup_nil
  · intro m
    rw [sortedMonthsFromData, hperm.mem_iff, uniqueInsertionOrder,
      mem_foldl_jsSetInsert]
    simp
  · exact List.sorted_insertionSort jsNumStrLe (uniqueInsertionOrder months)

/-! ## C4: detectFormat -/

/-- C4: `detectFormat` walks the registered definitions in registration
order and returns the first whose probe yields a non-null start row,
bundled with that row; when every probe returns `none` it returns the
`UNSUPPORTED` sentinel with start row 2. -/
theorem detectFormat_spec (regs : List ExcelFormatDefinition) (ws : Worksheet) :
    (∀ (pre : List ExcelFormatDefinition) (f : ExcelFormatDefinition)
        (post : List ExcelFormatDefinition) (r : Nat),
      regs = pre ++ f :: post → (∀ g ∈ pre, g.detect ws = none) →
      f.detect ws = some r → detectFormat regs ws = ⟨f.id, r⟩) ∧
    ((∀ g ∈ regs, g.detect ws = none) →
      detectFormat regs ws = ⟨ExcelFormat.UNSUPPORTED, 2⟩) := by
  constructor
  · intro pre f post r hregs hpre hf
    subst hregs
    induction pre with
    | nil => simp [detectFormat, hf]
    | cons g pre' ih =>
      have hg : g.detect ws = none := hpre g (by simp)
      rw [List.cons_append]
      simp only [detectFormat, hg]
      exact ih (fun g' hg' => hpre g' (by simp [hg']))
  · intro hall
    induction regs with
    | nil => rfl
    | cons g rest ih =>
      have hg : g.detect ws = none := hall g (by simp)
      simp only [detectFormat, hg]
      exact ih (fun g' hg' => hall g' (by simp [hg']))

def wdetNone : ExcelFormatDefinition := ⟨ExcelFormat.TIKTOK_LIVESTREAM, fun _ => none⟩

def wdetFive : ExcelFormatDefinition := ⟨ExcelFormat.SHOPEE_MONTHLY, fun _ => some 5⟩

/-- C4 witness: with a first probe that fails and a second that reports
start row 5, detection returns the second definition and row 5. -/
theorem detectFormat_spec_witness :
    detectFormat [wdetNone, wdetFive] [] =
      ⟨ExcelFormat.SHOPEE_MONTHLY, 5⟩ :=
  (detectFormat_spec [wdetNone, wdetFive] []).1 [wdetNone] wdetFive [] 5 rfl
    (by
      intro g hg
      rw [List.mem_singleton] at hg
      subst hg
      rfl)
    rfl

/-! ## C5: detectDataLength -/

theorem dataRowsFrom_of_empty {ws : Worksheet} {row : Nat}
    (h : anchorsEmpty ws row = true) : dataRowsFrom ws row = 0 := by
  rw [dataRowsFrom]
  simp [h]

theorem dataRowsFrom_of_nonempty {ws : Worksheet} {row : Nat}
    (h : anchorsEmpty ws row = false) :
    dataRowsFrom ws row = 1 + dataRowsFrom ws (row + 1) := by
  rw [dataRowsFrom]
  simp [h]

theorem specDataRowsFrom_of_empty {ws : Worksheet} {row : Nat}
    (h : specAnchorsEmpty ws row = true) : specDataRowsFrom ws row = 0 := by
  rw [specDataRowsFrom]
  simp [h]

theorem specDataRowsFrom_of_nonempty {ws : Worksheet} {row : Nat}
    (h : specAnchorsEmpty ws row = false) :
    specDataRowsFrom ws row = 1 + specDataRowsFrom ws (row + 1) := by
  rw [specDataRowsFrom]
  simp [h]

theorem dataRowsFrom_scan : ∀ (k : Nat) (ws : Worksheet) (row : Nat),
    dataRowsFrom ws row = k →
    (∀ i, i < k → anchorsEmpty ws (row + i) = false) ∧
    anchorsEmpty ws (row + k) = true := by
  intro k
  induction k with
  | zero =>
    intro ws row h
    have he : anchorsEmpty ws row = true := by
      by_contra hne
      rw [Bool.not_eq_true] at hne
      rw [dataRowsFrom_of_nonempty hne] at h
      omega
    exact ⟨fun i hi => absurd hi (by omega), by simpa using he⟩
  | succ k ih =>
    intro ws row h
    have hne : anchorsEmpty ws row = false := by
      by_contra htr
      rw [Bool.not_eq_false] at htr
      rw [dataRowsFrom_of_empty htr] at h
      omega
    rw [dataRowsFrom_of_nonempty hne] at h
    obtain ⟨h1, h2⟩ := ih ws (row + 1) (by omega)
    refine ⟨?_, ?_⟩
    · intro i hi
      cases i with
      | zero => simpa using hne
      | succ j =>
        rw [show row + (j + 1) = (row + 1) + j by omega]
        exact h1 j (by omega)
    · rw [show row + (k + 1) = (row + 1) + k by omega]
      exact h2

/-- The claim's synthetic block: a header row at row 1 followed by nine
data rows with non-empty anchors in rows 2-10; row 11 is past the physical
worksheet and hence empty. -/
def exampleWs : Worksheet :=
  [CellValue.str "Livestream", CellValue.str "Start time"] ::
    List.replicate 9 [CellValue.str "session", CellValue.str "19:00"]

theorem exampleWs_dataRows : dataRowsFrom exampleWs 2 = 9 := by
  simp +decide [dataRowsFrom_of_nonempty, dataRowsFrom_of_empty]

/-- The counterexample worksheet for the stop condition: the first row
holds the **number 0** in both anchor columns (neither null nor the empty
string), the second row holds text. -/
def wsFalsy : Worksheet :=
  [[CellValue.num 0, CellValue.num 0], [CellValue.str "x", CellValue.str "y"]]

/-- C5 (counterexample): on `wsFalsy` the source's scan stops immediately
(JavaScript truthiness treats the number 0 as empty) and reports
`lastRow = 0`, while under the claim's "null or empty string" stop rule the
scan would include both rows and report `lastRow = 2`. -/
theorem detectDataLength_truthiness_counterexample :
    detectDataLength wsFalsy 1 = ⟨1, 0⟩ ∧
    specDetectDataLength wsFalsy 1 = ⟨1, 2⟩ ∧
    detectDataLength wsFalsy 1 ≠ specDetectDataLength wsFalsy 1 := by
  have h1 : dataRowsFrom wsFalsy 1 = 0 := dataRowsFrom_of_empty (by decide)
  have h2 : specDataRowsFrom wsFalsy 1 = 2 := by
    simp +decide [specDataRowsFrom_of_nonempty, specDataRowsFrom_of_empty]
  refine ⟨?_, ?_, ?_⟩
  · simp [detectDataLength, h1]
  · simp [specDetectDataLength, h2]
  · simp [detectDataLength, specDetectDataLength, h1, h2]

/-- C5 (amended): `detectDataLength` scans forward from `startRow` and
stops at the first row whose anchors A and B are both empty **in the
JavaScript-truthiness sense** (null, empty string, or any other falsy cell
value such as the number 0); `lastRow = startRow + n - 1` for the `n`
contiguous non-terminating rows, so `lastRow ≥ startRow - 1` always, with
`lastRow < startRow` exactly for an empty dataset, and the claim's
2..10-block example yields `{startRow: 2, lastRow: 10}`. -/
theorem detectDataLength_spec :
    (∀ (ws : Worksheet) (startRow : Nat),
      (detectDataLength ws startRow).startRow = startRow ∧
      (detectDataLength ws startRow).lastRow =
        (startRow : Int) + (dataRowsFrom ws startRow : Int) - 1 ∧
      (∀ i, i < dataRowsFrom ws startRow →
        anchorsEmpty ws (startRow + i) = false) ∧
      anchorsEmpty ws (startRow + dataRowsFrom ws startRow) = true ∧
      (startRow : Int) - 1 ≤ (detectDataLength ws startRow).lastRow ∧
      ((detectDataLength ws startRow).lastRow < (startRow : Int) ↔
        dataRowsFrom ws startRow = 0)) ∧
    detectDataLength exampleWs 2 = ⟨2, 10⟩ := by
  constructor
  · intro ws startRow
    obtain ⟨hs1, hs2⟩ := dataRowsFrom_scan (dataRowsFrom ws startRow) ws
      startRow rfl
    refine ⟨rfl, rfl, hs1, hs2, ?_, ?_⟩
    · simp only [detectDataLength]
      omega
    · simp only [detectDataLength]
      omega
  · simp [detectDataLength, exampleWs_dataRows]

/-- C5 witness: the scan-characterization hypotheses discharged on the
claim's synthetic block — row 2 (offset 0) is a non-terminating row. -/
theorem detectDataLength_spec_witness :
    anchorsEmpty exampleWs (2 + 0) = false :=
  (detectDataLength_spec.1 exampleWs 2).2.2.1 0
    (by rw [exampleWs_dataRows]; norm_num)

/-! ## C8: registerExcelFormat -/

/-- C8: registration is idempotent by id — registering an already-present
id leaves the registry unchanged (a warning, never an error), and
registering the same definition twice equals registering it once. -/
theorem registerExcelFormat_spec :
    (∀ (regs : List ExcelFormatDefinition) (d : ExcelFormatDefinition),
      regs.any (fun f => f.id == d.id) = true →
      registerExcelFormat regs d = regs) ∧
    (∀ (regs : List ExcelFormatDefinition) (d : ExcelFormatDefinition),
      registerExcelFormat (registerExcelFormat regs d) d =
        registerExcelFormat regs d) := by
  constructor
  · intro regs d h
    simp [registerExcelFormat, h]
  · intro regs d
    by_cases h : regs.any (fun f => f.id == d.id) = true
    · simp [registerExcelFormat, h]
    · have hfirst : registerExcelFormat regs d = regs ++ [d] := by
        simp [registerExcelFormat, h]
      have hagain : (regs ++ [d]).any (fun f => f.id == d.id) = true := by
        rw [List.any_append]
        simp
      rw [hfirst]
      simp [registerExcelFormat, hagain]

def wregTiktok : ExcelFormatDefinition :=
  ⟨ExcelFormat.TIKTOK_LIVESTREAM, fun _ => some 2⟩

def wregTiktok2 : ExcelFormatDefinition :=
  ⟨ExcelFormat.TIKTOK_LIVESTREAM, fun _ => some 3⟩

/-- C8 witness: re-registering an id already present (even via a different
definition object) leaves the registry unchanged. -/
theorem registerExcelFormat_spec_witness :
    registerExcelFormat [wregTiktok] wregTiktok2 = [wregTiktok] :=
  registerExcelFormat_spec.1 [wregTiktok] wregTiktok2 rfl

/-! ## C9: summary average-per-day references the metrics sum column -/

/-- C9: the TikTok summary's "Avg GMV/Day" and the Shopee summary's
"Avg Sales/Day" are each an `AVERAGE` over the metrics sheet's day-sum
column (`metrics!F:F` resp. `metrics!H:H`) — the very column where the
metrics generator emits the per-date `SUMIFS` of gross revenue, and the
only `SUMIFS`-of-gross column of the row — rather than a recomputed
aggregate over the clean-data range. -/
theorem summaryAvgPerDay_spec :
    (∀ s l : Nat, (tiktokGenerateSummaryFormulas s l).lookup "Avg GMV/Day" =
      some "ROUND(AVERAGE(metrics!F:F),0)") ∧
    (∀ row s l : Nat, (tiktokGenerateMetricsFormulas row s l).lookup "F" =
      some ("SUMIFS(" ++ (tiktokBuildDataRanges s l).grossR ++ "," ++
        (tiktokBuildDataRanges s l).startDateR ++ ",B" ++ toString row ++
        ")")) ∧
    (∀ s l : Nat, (shopeeGenerateSummaryFormulas s l).lookup "Avg Sales/Day" =
      some "ROUND(AVERAGE(metrics!H:H),0)") ∧
    (∀ row s l : Nat, (shopeeGenerateMetricsFormulas row s l).lookup "H" =
      some ("SUMIFS(" ++ (shopeeBuildDataRanges s l).grossR ++ "," ++
        (shopeeBuildDataRanges s l).startDateR ++ ",B" ++ toString row ++
        ")")) ∧
    strContainsSub "ROUND(AVERAGE(metrics!F:F),0)" "clean data" = false ∧
    strContainsSub "ROUND(AVERAGE(metrics!H:H),0)" "clean data" = false ∧
    ((tiktokGenerateMetricsFormulas 2 2 9).filter
      (fun p => strContainsSub p.2 "SUMIFS('clean data'!$D")).map Prod.fst =
      ["F"] ∧
    ((shopeeGenerateMetricsFormulas 2 2 9).filter
      (fun p => strContainsSub p.2 "SUMIFS('clean data'!$C")).map Prod.fst =
      ["H"] :=
  ⟨fun s l => rfl, fun row s l => rfl, fun s l => rfl, fun row s l => rfl,
    by decide, by decide, by decide, by decide⟩

end CTools
